import Mathlib

/-!
Shallow embedding of `ReviewsResponder.py` (a desktop tool that drafts
AI replies for Google reviews, lets a user approve them, and writes the
approved reply back into the review spreadsheet).

The embedding models:
  * the Python string helpers used by the code (`str.strip`, `str.lower`,
    slicing `s[:700]`, `"sep".join`) on Lean `String`s as lists of chars;
  * `build_examples_string` (lines 52-68) and `generate_ai_response`
    (lines 71-119), with the completion service abstracted as a function
    from attempt number and message list to an optional reply (`none`
    models the API call raising an exception);
  * pagination (`MyFrame.on_previous` lines 489-493, `MyFrame.on_next`
    lines 495-499, `MyFrame.update_reviews` lines 506-527);
  * the write-back path (`ReviewFrame.show_responded_message` lines
    374-388 together with `MyFrame.save_to_excel` lines 529-534), over an
    explicit store state (in-memory table plus persisted file contents);
  * a small event system (draft, user edit, confirmed submission) for the
    reply/confirmation invariant.
-/

namespace ReviewsResponder

/-- Python `str.isspace` on the ASCII whitespace characters relevant here
(space, tab, newline, vertical tab, form feed, carriage return). -/
def pyIsSpace (c : Char) : Bool :=
  c = ' ' || c = '\t' || c = '\n' || c = '\x0b' || c = '\x0c' || c = '\r'

/-- Python `str.strip()` on a list of characters: drop whitespace from
both ends. -/
def pyStripList (l : List Char) : List Char :=
  ((l.dropWhile pyIsSpace).reverse.dropWhile pyIsSpace).reverse

/-- Python `str.strip()`. -/
def pyStrip (s : String) : String :=
  String.mk (pyStripList s.data)

/-- Python `str.lower()` (ASCII case fold, which is all the code relies
on for its comparison with the literal "nan"). -/
def pyLower (s : String) : String :=
  String.mk (s.data.map Char.toLower)

/-- Python slicing `s[:700]` (line 79): the first 700 characters. -/
def pySlice700 (s : String) : String :=
  String.mk (s.data.take 700)

/-- Python `sep.join(parts)`. -/
def pyJoin (sep : String) : List String → String
  | [] => ""
  | [x] => x
  | x :: y :: xs => x ++ sep ++ pyJoin sep (y :: xs)

/-- One row of the review spreadsheet (§6 of the spec lists the columns).
Cells that pandas may hold as NaN are modelled as `Option String`, with
`none` standing for a missing (NaN) cell. -/
structure Review where
  name : String
  reviews : String
  rating : String
  author_title : String
  review_text : Option String
  review_rating : String
  review_datetime_utc : String
  review_link : Option String
  reviews_link : Option String
  owner_answer : Option String
deriving DecidableEq, Repr

/-- `pd.notna` on an optional cell. -/
def pdNotna : Option String → Bool
  | none => false
  | some _ => true

/-- The "Review: ...\nAnswer: ..." example pair built at line 64. -/
def examplePair (r_text o_ans : String) : String :=
  "Review: " ++ r_text ++ "\nAnswer: " ++ o_ans

/-- The filtering loop of `build_examples_string` (lines 59-64): keep a
pair for each row whose review text and owner answer are both present
(`pd.notna`) and truthy after `strip()`. -/
def examples_list (rows : List Review) : List String :=
  rows.filterMap fun row =>
    match row.review_text, row.owner_answer with
    | some r_text, some o_ans =>
      if pyStrip r_text ≠ "" ∧ pyStrip o_ans ≠ "" then
        some (examplePair r_text o_ans)
      else
        none
    | _, _ => none

/-- `build_examples_string` (lines 52-68). -/
def build_examples_string (rows : List Review) : String :=
  let l := examples_list rows
  if l.isEmpty then ""
  else "Here are some previous examples of how you have responded:\n\n" ++ pyJoin "\n\n" l

/-- `self.data.dropna(subset=["owner_answer"])` (line 417): the answered
subset handed to `build_examples_string`. -/
def dropna_owner_answer (rows : List Review) : List Review :=
  rows.filter fun row => pdNotna row.owner_answer

/-- The fixed placeholder substituted for blank review text (line 81). -/
def PLACEHOLDER : String := "Thank you for your business."

/-- The fixed fallback returned after exhausting retries (line 118). -/
def FALLBACK : String := "Response unavailable at this time."

/-- Lines 79-81: truncate the review text to 700 characters, then
substitute the placeholder when the truncation strips to nothing or
lower-cases to "nan". -/
def effective_text (review_text : String) : String :=
  let truncated_text := pySlice700 review_text
  if pyStrip truncated_text = "" ∨ pyLower truncated_text = "nan" then
    PLACEHOLDER
  else
    truncated_text

/-- The user message content built at lines 84-88. -/
def user_content (examples_prompt review_author review_text : String) : String :=
  examples_prompt ++ "\n\nNow respond to a review from \x27" ++ review_author ++
    "\x27 who said:\n\n\"" ++ effective_text review_text ++ "\""

/-- One chat message of the completion request. -/
structure ChatMessage where
  role : String
  content : String
deriving DecidableEq, Repr

/-- The fixed system instruction (lines 92-97). -/
def system_content : String :=
  "You are a business owner responding to customer google my business reviews " ++
    "in a helpful and professional tone. Respond in the same language as the review. " ++
    "Responses should be varied but be similar length to previous responses."

/-- The message list sent to the completion service (lines 90-103). -/
def messages (examples_prompt review_author review_text : String) : List ChatMessage :=
  [ { role := "system", content := system_content },
    { role := "user", content := user_content examples_prompt review_author review_text } ]

/-- A completion service: given the attempt number and the messages of
the request, either return the completion content or fail (`none` models
the API call raising an exception, line 114). -/
def Service : Type := Nat → List ChatMessage → Option String

/-- The retry loop of `generate_ai_response` (lines 76-119), with `fuel`
the number of loop iterations still to run (initially `max_retries`) and
`attempt` the current attempt index.  The returned pair is the function
result (`none` models Python falling off the loop and returning `None`,
which happens only when `max_retries = 0`) together with the list of
`time.sleep` durations performed, in order (line 119: `2 ** attempt`). -/
def genAttempts (svc : Service) (review_author review_text examples_prompt : String)
    (max_retries : Nat) : Nat → Nat → Option String × List Nat
  | 0, _ => (none, [])
  | fuel + 1, attempt =>
    let msgs := messages examples_prompt review_author review_text
    match svc attempt msgs with
    | some content => (some (pyStrip content), [])
    | none =>
      if attempt = max_retries - 1 then
        (some FALLBACK, [])
      else
        let rest := genAttempts svc review_author review_text examples_prompt max_retries
          fuel (attempt + 1)
        (rest.1, 2 ^ attempt :: rest.2)

/-- `generate_ai_response` (lines 71-119), instrumented with the sleep
durations it performs. -/
def generate_ai_response (svc : Service) (review_author review_text : String)
    (examples_prompt : String := "") (max_retries : Nat := 3) :
    Option String × List Nat :=
  genAttempts svc review_author review_text examples_prompt max_retries max_retries 0

/-- A spreadsheet cell as the drafter receives it from
`row.get("review_text", "")` (line 424): either a Python string, or the
float NaN that pandas stores for a missing cell. -/
inductive Cell where
  | str (s : String)
  | nan
deriving DecidableEq, Repr

/-- The retry loop of lines 76-119 when the review text is the float
NaN: the slicing `review_text[:700]` at line 79 raises TypeError before
any message is built or any service call is made, so every attempt takes
the except branch (lines 114-119) — fall back at the last attempt,
otherwise sleep `2 ^ attempt` and retry. -/
def genAttemptsNan (max_retries : Nat) : Nat → Nat → Option String × List Nat
  | 0, _ => (none, [])
  | fuel + 1, attempt =>
    if attempt = max_retries - 1 then
      (some FALLBACK, [])
    else
      let rest := genAttemptsNan max_retries fuel (attempt + 1)
      (rest.1, 2 ^ attempt :: rest.2)

/-- `generate_ai_response` (lines 71-119) on the raw cell value the
caller passes at line 424: a string value runs the normal loop, while
the float NaN raises TypeError at line 79 on every attempt, so the
completion service is never called and the loop degrades to the
fallback. -/
def generate_ai_response_cell (svc : Service) (review_author : String)
    (review_text : Cell) (examples_prompt : String := "") (max_retries : Nat := 3) :
    Option String × List Nat :=
  match review_text with
  | .str s => generate_ai_response svc review_author s examples_prompt max_retries
  | .nan => genAttemptsNan max_retries max_retries 0

/-- Line 424: the raw value handed to `generate_ai_response` for a
review — a missing (NaN) cell is passed through as the float NaN, not
as a string. -/
def review_text_cell (r : Review) : Cell :=
  match r.review_text with
  | some s => Cell.str s
  | none => Cell.nan

/-- Number of pages shown three at a time: `ceil(N / 3)`. -/
def numPages (n : Nat) : Nat := (n + 2) / 3

/-- The last valid page index, `ceil(N / 3) - 1`. -/
def lastPage (n : Nat) : Nat := numPages n - 1

/-- `MyFrame.on_previous` (lines 489-493), as its effect on
`current_page`. -/
def on_previous (current_page : Nat) : Nat :=
  if current_page > 0 then current_page - 1 else current_page

/-- `MyFrame.on_next` (lines 495-499), as its effect on `current_page`;
`dataLen` is `len(self.data)`. -/
def on_next (dataLen current_page : Nat) : Nat :=
  if (current_page + 1) * 3 < dataLen then current_page + 1 else current_page

/-- `MyFrame.update_reviews` (lines 506-527): the displayed state of the
three slots, each holding the bound review (or `none` when cleared) and
the shown AI response text (`""` when cleared). -/
def update_reviews (data : List Review) (responses : List String) (page : Nat) :
    List (Option Review × String) :=
  (List.range 3).map fun i =>
    if page * 3 + i < data.length then
      (data[page * 3 + i]?, responses.getD (page * 3 + i) "")
    else
      (none, "")

/-- Line 386: `{ row with owner_answer := reply }` — the single-cell
update performed by `parent_frame.data.loc[row_index, "owner_answer"]`. -/
def set_answer (row : Review) (reply : String) : Review :=
  { row with owner_answer := some reply }

/-- The effect of the `.loc` assignment at line 386 on the in-memory
table: replace row `i`'s `owner_answer` with the reply.  (The GUI only
produces in-range row indices, line 511.) -/
def write_back : List Review → Nat → String → List Review
  | [], _, _ => []
  | row :: rest, 0, reply => set_answer row reply :: rest
  | row :: rest, i + 1, reply => row :: write_back rest i reply

/-- The review store: the in-memory table and the persisted spreadsheet
contents. -/
structure StoreState where
  table : List Review
  file : List Review
deriving DecidableEq, Repr

/-- `MyFrame.save_to_excel` (lines 529-534): rewrite the whole file from
the in-memory table. -/
def save_to_excel (s : StoreState) : StoreState :=
  { s with file := s.table }

/-- `ReviewFrame.show_responded_message` (lines 374-388): set the row's
`owner_answer` to the reply text and save the whole table to the file. -/
def show_responded_message (s : StoreState) (row_index : Nat) (reply : String) :
    StoreState :=
  save_to_excel { s with table := write_back s.table row_index reply }

/-- Whether a stored reply counts as an answer, exactly the display test
at line 216 (`isinstance(owner_ans, str) and owner_ans.strip()`). -/
def ownerNonBlank (r : Review) : Bool :=
  match r.owner_answer with
  | some a => pyStrip a != ""
  | none => false

/-- The whole-system state for the reply/confirmation invariant: the
review table, the per-row editable draft texts (the `airesponse_text`
fields), and which rows have been confirmed as submitted. -/
structure SysState where
  table : List Review
  drafts : Nat → String
  confirmed : Nat → Bool

/-- The events that touch replies: drafting (pre-generated AI text put in
the response field, line 522), a user edit of the response field, and a
confirmed submission (line 360, which triggers
`show_responded_message`). -/
inductive Event where
  | draft (i : Nat) (text : String)
  | edit (i : Nat) (text : String)
  | submit (i : Nat)

/-- Applying an event: drafting and editing change only the draft text;
a confirmed submission writes the current draft into the table row
(lines 380-388) and marks the row confirmed. -/
def applyEvent (s : SysState) : Event → SysState
  | .draft i text => { s with drafts := fun j => if j = i then text else s.drafts j }
  | .edit i text => { s with drafts := fun j => if j = i then text else s.drafts j }
  | .submit i =>
    { s with
      table := write_back s.table i (s.drafts i),
      confirmed := fun j => if j = i then true else s.confirmed j }

/-- Which rows count as already confirmed at load time: exactly the rows
the GUI labels "Answered!" (lines 214-221). -/
def initConfirmed (table : List Review) : Nat → Bool :=
  fun i =>
    match table[i]? with
    | some r => ownerNonBlank r
    | none => false

/-- The state right after loading the table and pre-generating drafts. -/
def initState (table : List Review) (drafts0 : Nat → String) : SysState :=
  { table := table, drafts := drafts0, confirmed := initConfirmed table }

/-- States reachable from an initial state by any events. -/
inductive ReachesFrom (s0 : SysState) : SysState → Prop
  | refl : ReachesFrom s0 s0
  | step (s : SysState) (e : Event) : ReachesFrom s0 s → ReachesFrom s0 (applyEvent s e)

/-- States reachable when every confirmed submission carries a draft that
is non-blank after stripping. -/
inductive GoodReach (s0 : SysState) : SysState → Prop
  | refl : GoodReach s0 s0
  | draft (s : SysState) (i : Nat) (text : String) :
      GoodReach s0 s → GoodReach s0 (applyEvent s (.draft i text))
  | edit (s : SysState) (i : Nat) (text : String) :
      GoodReach s0 s → GoodReach s0 (applyEvent s (.edit i text))
  | submit (s : SysState) (i : Nat) :
      pyStrip (s.drafts i) ≠ "" → GoodReach s0 s → GoodReach s0 (applyEvent s (.submit i))

/-- The reply/confirmation invariant of §3 of the spec: a stored reply is
non-blank exactly on the confirmed rows. -/
def invariantC8 (s : SysState) : Prop :=
  ∀ i r, s.table[i]? = some r → (ownerNonBlank r = true ↔ s.confirmed i = true)

/-- A concrete unanswered review row, used for witnesses. -/
def sampleRow : Review :=
  { name := "Gustin Quon", reviews := "12", rating := "4.5", author_title := "Ann",
    review_text := none, review_rating := "5", review_datetime_utc := "2024-01-01",
    review_link := none, reviews_link := none, owner_answer := none }

/-- A completion service that always fails. -/
def svcFailAll : Service := fun _ _ => none

/-- A completion service that fails on the first two attempts and
succeeds on the third. -/
def c2svc : Service := fun attempt _ =>
  if attempt = 2 then some " Thank you so much! " else none

/-- A completion service that succeeds on every attempt. -/
def svcEcho : Service := fun _ _ => some "Glad you enjoyed it!"

/-- A review row whose text cell holds the empty string. -/
def c5EmptyRow : Review := { sampleRow with review_text := some "" }

/-- A four-review table satisfying C4's premise (only review 3 has an
owner answer) on which the example builder emits no pair, because review
3's text cell is missing. -/
def c4BadTable : List Review :=
  [ { sampleRow with review_text := some "Fine." },
    { sampleRow with review_text := some "Good." },
    { sampleRow with review_text := none, owner_answer := some "Thanks for visiting!" },
    { sampleRow with review_text := some "Nice." } ]

/-- A review row with answered text and answer, for C4's witness. -/
def c4AnswerRow : Review :=
  { sampleRow with review_text := some "Great food", owner_answer := some "Thanks for coming in!" }

/-- A concrete four-review table, for the pagination witness. -/
def demoTable4 : List Review := [sampleRow, sampleRow, sampleRow, sampleRow]

/-- Concrete response texts for the pagination witness. -/
def demoResponses : List String := ["d0", "d1", "d2", "d3"]

/-- A concrete one-row store, for the write-back witnesses. -/
def demoStore : StoreState := { table := [sampleRow], file := [sampleRow] }

/-- A concrete one-review system state, for C8. -/
def c8Row : Review := { sampleRow with review_text := some "Slow service" }

/-- The loaded state for C8's scenario. -/
def c8Init : SysState := initState [c8Row] fun _ => "We are sorry."

/-- The state after the user clears the draft for row 0. -/
def c8Mid : SysState := applyEvent c8Init (.edit 0 "")

/-- The state after a confirmed submission of the cleared (empty)
draft. -/
def c8Bad : SysState := applyEvent c8Mid (.submit 0)

/-!  Theorems. -/

theorem dropWhile_pyIsSpace_eq_nil_iff (l : List Char) :
    l.dropWhile pyIsSpace = [] ↔ l.all pyIsSpace = true := by
  rw [List.dropWhile_eq_nil_iff, List.all_eq_true]

theorem all_pyIsSpace_dropWhile (l : List Char) :
    (l.dropWhile pyIsSpace).all pyIsSpace = l.all pyIsSpace := by
  induction l with
  | nil => rfl
  | cons a l ih =>
    by_cases h : pyIsSpace a
    · simp [List.dropWhile_cons, h, ih]
    · simp [List.dropWhile_cons, h]

theorem pyStripList_eq_nil_iff (l : List Char) :
    pyStripList l = [] ↔ l.all pyIsSpace = true := by
  unfold pyStripList
  rw [List.reverse_eq_nil_iff, dropWhile_pyIsSpace_eq_nil_iff, List.all_reverse,
    all_pyIsSpace_dropWhile]

theorem pyStrip_eq_empty_iff (s : String) :
    pyStrip s = "" ↔ s.data.all pyIsSpace = true := by
  rw [show pyStrip s = String.mk (pyStripList s.data) from rfl, String.ext_iff]
  exact pyStripList_eq_nil_iff s.data

/-- Claim C6: the review-text portion embedded in the completion request
is at most 700 characters: the text is truncated to its first 700
characters (and the placeholder, when substituted, is also within the
bound). -/
theorem truncation_bound (review_text : String) :
    (effective_text review_text).length ≤ 700 := by
  show (if pyStrip (pySlice700 review_text) = "" ∨ pyLower (pySlice700 review_text) = "nan"
    then PLACEHOLDER else pySlice700 review_text).length ≤ 700
  split
  · decide
  · show (review_text.data.take 700).length ≤ 700
    rw [List.length_take]
    exact Nat.min_le_left _ _

/-- Claim C10: the placeholder is substituted exactly when the first 700
characters of the review text are all whitespace (in particular when the
text is empty) or the truncated text equals "nan" case-insensitively; in
every other case the truncated original text is used. -/
theorem placeholder_condition (review_text : String) :
    effective_text review_text =
      if (pySlice700 review_text).data.all pyIsSpace = true ∨
          pyLower (pySlice700 review_text) = "nan" then
        PLACEHOLDER
      else
        pySlice700 review_text := by
  unfold effective_text
  exact if_congr (or_congr_left (pyStrip_eq_empty_iff _)) rfl rfl

/-- Claim C5 (counterexample): for a review whose text cell is missing
(NaN), the drafter never substitutes the placeholder: line 79 raises
TypeError on the float NaN at every attempt, so even with a completion
service that succeeds on every call — including on the very message the
claim expects to be sent — the result is the retry fallback after the
two backoff sleeps, not a response to a placeholder message. -/
theorem missing_text_fallback_counterexample :
    review_text_cell sampleRow = Cell.nan ∧
    svcEcho 0 (messages "" "Ann" PLACEHOLDER) = some "Glad you enjoyed it!" ∧
    generate_ai_response_cell svcEcho "Ann" (review_text_cell sampleRow) "" 3 =
      (some FALLBACK, [2 ^ 0, 2 ^ 1]) ∧
    FALLBACK ≠ pyStrip "Glad you enjoyed it!" ∧
    FALLBACK ≠ PLACEHOLDER :=
  ⟨rfl, rfl, by decide, by decide, by decide⟩

/-- Claim C5 (amended): a review text that arrives as a string and is
empty gets the fixed placeholder substituted before the user message is
built, while a missing (NaN) text cell never reaches the placeholder
path: every attempt raises at line 79, so the drafter returns the fixed
fallback string after the backoff sleeps without ever calling the
completion service. -/
theorem empty_text_placeholder (r : Review) (examples_prompt review_author : String)
    (svc : Service) :
    (r.review_text = some "" →
      effective_text "" = PLACEHOLDER ∧
      review_text_cell r = Cell.str "" ∧
      messages examples_prompt review_author "" =
        [ { role := "system", content := system_content },
          { role := "user", content := examples_prompt ++
              "\n\nNow respond to a review from \x27" ++ review_author ++
              "\x27 who said:\n\n\"" ++ PLACEHOLDER ++ "\"" } ]) ∧
    (r.review_text = none →
      review_text_cell r = Cell.nan ∧
      generate_ai_response_cell svc review_author (review_text_cell r) examples_prompt 3 =
        (some FALLBACK, [2 ^ 0, 2 ^ 1])) := by
  constructor
  · intro he
    refine ⟨by decide, ?_, ?_⟩
    · simp [review_text_cell, he]
    · simp only [messages, user_content]
      rw [show effective_text "" = PLACEHOLDER from by decide]
  · intro hn
    have hc : review_text_cell r = Cell.nan := by simp [review_text_cell, hn]
    refine ⟨hc, ?_⟩
    rw [hc]
    exact rfl

theorem empty_text_placeholder_witness :
    effective_text "" = PLACEHOLDER ∧
    review_text_cell c5EmptyRow = Cell.str "" ∧
    messages "" "Ann" "" =
      [ { role := "system", content := system_content },
        { role := "user", content := "" ++
            "\n\nNow respond to a review from \x27" ++ "Ann" ++
            "\x27 who said:\n\n\"" ++ PLACEHOLDER ++ "\"" } ] :=
  (empty_text_placeholder c5EmptyRow "" "Ann" svcEcho).1 rfl

/-- Claim C1: whatever the author, review text and examples prompt, if
every one of the (at most 3) attempts at calling the completion service
fails, `generate_ai_response` returns the fixed fallback string rather
than propagating an exception. -/
theorem retries_exhausted_fallback (svc : Service)
    (review_author review_text examples_prompt : String)
    (h : ∀ n msgs, n < 3 → svc n msgs = none) :
    (generate_ai_response svc review_author review_text examples_prompt 3).1 =
      some FALLBACK := by
  have h0 := h 0 (messages examples_prompt review_author review_text) (by omega)
  have h1 := h 1 (messages examples_prompt review_author review_text) (by omega)
  have h2 := h 2 (messages examples_prompt review_author review_text) (by omega)
  simp [generate_ai_response, genAttempts, h0, h1, h2]

theorem retries_exhausted_fallback_witness :
    (generate_ai_response svcFailAll "Ann" "Great" "" 3).1 = some FALLBACK :=
  retries_exhausted_fallback svcFailAll "Ann" "Great" "" fun _ _ _ => rfl

/-- Claim C2: when the completion service fails on the first two calls
and succeeds on the third, `generate_ai_response` returns the third
call's result stripped, sleeping 2 ^ 0 seconds between the first and
second attempt and 2 ^ 1 seconds between the second and third, with no
sleep after the successful attempt. -/
theorem fail_twice_then_succeed (svc : Service)
    (reply review_author review_text examples_prompt : String)
    (h0 : svc 0 (messages examples_prompt review_author review_text) = none)
    (h1 : svc 1 (messages examples_prompt review_author review_text) = none)
    (h2 : svc 2 (messages examples_prompt review_author review_text) = some reply) :
    generate_ai_response svc review_author review_text examples_prompt 3 =
      (some (pyStrip reply), [2 ^ 0, 2 ^ 1]) := by
  simp [generate_ai_response, genAttempts, h0, h1, h2]

theorem fail_twice_then_succeed_witness :
    generate_ai_response c2svc "Ann" "Great" "" 3 =
      (some (pyStrip " Thank you so much! "), [2 ^ 0, 2 ^ 1]) :=
  fail_twice_then_succeed c2svc " Thank you so much! " "Ann" "Great" "" rfl rfl rfl

/-- Claim C4 (counterexample): a four-review table in which exactly
review 3 has a non-empty owner answer — but a missing review text — on
which the example builder emits no pair at all, contradicting the claim
that exactly one pair is always emitted under that premise. -/
theorem examples_missing_text_counterexample :
    c4BadTable.length = 4 ∧
    c4BadTable.map Review.owner_answer = [none, none, some "Thanks for visiting!", none] ∧
    examples_list (dropna_owner_answer c4BadTable) = [] ∧
    build_examples_string (dropna_owner_answer c4BadTable) = "" :=
  ⟨rfl, rfl, rfl, rfl⟩

/-- Claim C4 (amended): for a table of four reviews in which exactly
review 3 has an owner answer, and review 3's text and answer cells are
both present and non-blank after stripping, the example builder applied
to the answered subset emits exactly the one "Review/Answer" pair for
review 3 and no pair for the other three reviews. -/
theorem examples_single_pair (r1 r2 r3 r4 : Review) (t3 a3 : String)
    (h1 : r1.owner_answer = none) (h2 : r2.owner_answer = none)
    (h4 : r4.owner_answer = none)
    (ht : r3.review_text = some t3) (ha : r3.owner_answer = some a3)
    (htb : pyStrip t3 ≠ "") (hab : pyStrip a3 ≠ "") :
    examples_list (dropna_owner_answer [r1, r2, r3, r4]) = [examplePair t3 a3] ∧
    build_examples_string (dropna_owner_answer [r1, r2, r3, r4]) =
      "Here are some previous examples of how you have responded:\n\n" ++
        examplePair t3 a3 := by
  have hl : examples_list (dropna_owner_answer [r1, r2, r3, r4]) = [examplePair t3 a3] := by
    simp [dropna_owner_answer, examples_list, pdNotna, h1, h2, h4, ht, ha, htb, hab]
  refine ⟨hl, ?_⟩
  simp only [build_examples_string, hl, List.isEmpty_cons, Bool.false_eq_true, if_false]
  rfl

theorem examples_single_pair_witness :
    examples_list (dropna_owner_answer [sampleRow, sampleRow, c4AnswerRow, sampleRow]) =
      [examplePair "Great food" "Thanks for coming in!"] ∧
    build_examples_string (dropna_owner_answer [sampleRow, sampleRow, c4AnswerRow, sampleRow]) =
      "Here are some previous examples of how you have responded:\n\n" ++
        examplePair "Great food" "Thanks for coming in!" :=
  examples_single_pair sampleRow sampleRow c4AnswerRow sampleRow
    "Great food" "Thanks for coming in!" rfl rfl rfl rfl rfl (by decide) (by decide)

/-- Claim C3: with page size 3, starting from any in-range page of an
N-review table, both navigation handlers keep the page index within
[0, ceil(N/3) - 1]; Previous at page 0 and Next at the last page are
no-ops leaving the index and the displayed slots unchanged, and every
other navigation moves the index by exactly one. -/
theorem pagination_bounds (data : List Review) (responses : List String) (p : Nat)
    (hp : p ≤ lastPage data.length) :
    on_previous p ≤ lastPage data.length ∧
    on_next data.length p ≤ lastPage data.length ∧
    (p = 0 → on_previous p = p ∧
      update_reviews data responses (on_previous p) = update_reviews data responses p) ∧
    (p = lastPage data.length → on_next data.length p = p ∧
      update_reviews data responses (on_next data.length p) =
        update_reviews data responses p) ∧
    (0 < p → on_previous p = p - 1) ∧
    (p < lastPage data.length → on_next data.length p = p + 1) := by
  unfold lastPage numPages at hp
  refine ⟨?_, ?_, ?_, ?_, ?_, ?_⟩
  · unfold on_previous lastPage numPages
    split <;> omega
  · unfold on_next lastPage numPages
    split <;> omega
  · intro h0
    subst h0
    exact ⟨rfl, rfl⟩
  · intro hl
    have hne : ¬ ((p + 1) * 3 < data.length) := by
      unfold lastPage numPages at hl
      omega
    have he : on_next data.length p = p := by
      unfold on_next
      rw [if_neg hne]
    exact ⟨he, by rw [he]⟩
  · intro hpos
    unfold on_previous
    rw [if_pos hpos]
  · intro hlt
    have hc : (p + 1) * 3 < data.length := by
      unfold lastPage numPages at hlt
      omega
    unfold on_next
    rw [if_pos hc]

theorem pagination_bounds_witness :
    on_next demoTable4.length 0 = 0 + 1 :=
  (pagination_bounds demoTable4 demoResponses 0 (by decide)).2.2.2.2.2 (by decide)

theorem write_back_length (t : List Review) (i : Nat) (reply : String) :
    (write_back t i reply).length = t.length := by
  induction t generalizing i with
  | nil => rfl
  | cons head tail ih =>
    cases i with
    | zero => rfl
    | succ m => simp [write_back, ih]

theorem write_back_getElem (t : List Review) (i j : Nat) (reply : String) :
    (write_back t i reply)[j]? =
      if j = i then (t[j]?).map (fun row => set_answer row reply) else t[j]? := by
  induction t generalizing i j with
  | nil => simp [write_back]
  | cons head tail ih =>
    cases i with
    | zero =>
      cases j with
      | zero => simp [write_back]
      | succ k => simp [write_back]
    | succ m =>
      cases j with
      | zero => simp [write_back]
      | succ k => simpa [write_back] using ih m k

theorem write_back_twice (t : List Review) (i : Nat) (reply : String) :
    write_back (write_back t i reply) i reply = write_back t i reply := by
  induction t generalizing i with
  | nil => rfl
  | cons head tail ih =>
    cases i with
    | zero => rfl
    | succ m => simp [write_back, ih]

/-- Claim C7: the write-back is idempotent — writing the same reply text
twice in succession for the same review row leaves the in-memory table
and the persisted file exactly as a single write-back does. -/
theorem write_back_idempotent (s : StoreState) (i : Nat) (reply : String)
    (_hi : i < s.table.length) :
    show_responded_message (show_responded_message s i reply) i reply =
      show_responded_message s i reply := by
  simp [show_responded_message, save_to_excel, write_back_twice]

theorem write_back_idempotent_witness :
    show_responded_message (show_responded_message demoStore 0 "Thanks") 0 "Thanks" =
      show_responded_message demoStore 0 "Thanks" :=
  write_back_idempotent demoStore 0 "Thanks" (by decide)

/-- Claim C9: a submission write-back changes only the `owner_answer`
cell of the written row — every other row is unchanged, the written row
keeps every other column, and the file is rewritten with exactly the
full updated table. -/
theorem write_back_frame (s : StoreState) (i : Nat) (reply : String)
    (_hi : i < s.table.length) :
    (show_responded_message s i reply).table.length = s.table.length ∧
    (∀ j, (show_responded_message s i reply).table[j]? =
      if j = i then (s.table[j]?).map (fun row => set_answer row reply)
      else s.table[j]?) ∧
    (show_responded_message s i reply).file = (show_responded_message s i reply).table ∧
    (∀ row : Review, ∀ text : String,
      (set_answer row text).name = row.name ∧
      (set_answer row text).reviews = row.reviews ∧
      (set_answer row text).rating = row.rating ∧
      (set_answer row text).author_title = row.author_title ∧
      (set_answer row text).review_text = row.review_text ∧
      (set_answer row text).review_rating = row.review_rating ∧
      (set_answer row text).review_datetime_utc = row.review_datetime_utc ∧
      (set_answer row text).review_link = row.review_link ∧
      (set_answer row text).reviews_link = row.reviews_link ∧
      (set_answer row text).owner_answer = some text) :=
  ⟨write_back_length s.table i reply,
   fun j => write_back_getElem s.table i j reply,
   rfl,
   fun _ _ => ⟨rfl, rfl, rfl, rfl, rfl, rfl, rfl, rfl, rfl, rfl⟩⟩

theorem write_back_frame_witness :
    (show_responded_message demoStore 0 "Thanks").table[0]? =
      if 0 = 0 then (demoStore.table[0]?).map (fun row => set_answer row "Thanks")
      else demoStore.table[0]? :=
  (write_back_frame demoStore 0 "Thanks" (by decide)).2.1 0

/-- Claim C8 (counterexample): from a loaded one-review table, the user
can clear the draft to the empty string and confirm a submission; the
reached state has the row confirmed as submitted while its stored reply
is the empty string, so the claimed "non-empty iff confirmed" invariant
fails in a reachable state. -/
theorem blank_submission_counterexample :
    ReachesFrom c8Init c8Bad ∧
    c8Bad.confirmed 0 = true ∧
    c8Bad.table = [{ c8Row with owner_answer := some "" }] ∧
    ¬ invariantC8 c8Bad := by
  refine ⟨ReachesFrom.step c8Mid (.submit 0)
      (ReachesFrom.step c8Init (.edit 0 "") ReachesFrom.refl), rfl, rfl, ?_⟩
  intro h
  exact absurd ((h 0 { c8Row with owner_answer := some "" } rfl).mpr rfl) (by decide)

/-- Claim C8 (amended): in every reachable state in which each confirmed
submission was performed with a draft text that is non-blank after
stripping, a review's stored reply is non-blank exactly when the review
has been confirmed as submitted (rows already answered in the loaded
file count as confirmed); drafting and user edits never change stored
replies. -/
theorem reply_confirmed_invariant (table : List Review) (drafts0 : Nat → String)
    (s : SysState) (h : GoodReach (initState table drafts0) s) :
    invariantC8 s := by
  induction h with
  | refl =>
    intro i r hr
    have hr' : table[i]? = some r := hr
    show ownerNonBlank r = true ↔ initConfirmed table i = true
    unfold initConfirmed
    rw [hr']
  | draft s i text hs ih => exact ih
  | edit s i text hs ih => exact ih
  | submit s i hne hs ih =>
    intro j r hr
    have hr' : (write_back s.table i (s.drafts i))[j]? = some r := hr
    rw [write_back_getElem] at hr'
    show ownerNonBlank r = true ↔ (if j = i then true else s.confirmed j) = true
    by_cases hj : j = i
    · subst hj
      rw [if_pos rfl] at hr' ⊢
      cases htab : s.table[j]? with
      | none =>
        rw [htab] at hr'
        simp at hr'
      | some row =>
        rw [htab] at hr'
        simp only [Option.map_some'] at hr'
        injection hr' with hrow
        subst hrow
        simp [ownerNonBlank, set_answer, hne]
    · rw [if_neg hj] at hr' ⊢
      exact ih j r hr'

theorem reply_confirmed_invariant_witness : invariantC8 c8Init :=
  reply_confirmed_invariant [c8Row] (fun _ => "We are sorry.") c8Init GoodReach.refl

end ReviewsResponder
